import Mathlib

/-!
# Verification of the email-organizer triage and unsubscribe engine

Shallow embedding of the core logic of the repository:

* `main.py` — the triage loop (`main`): idempotency skip, classification,
  retention decision, rate-limit retry protocol, and the final run summary.
* `unsubscribe_handler.py` — `UnsubscribeHandler`: extraction of unsubscribe
  mechanisms from headers and body, URL safety validation, and the
  method-specific unsubscribe execution.

Python strings are modelled as Lean `String` / `List Char`; dictionaries as
association lists; the network and the classifier as explicit oracles passed
to the embedded functions, so that every definition stays executable.
-/

set_option autoImplicit false

namespace EmailOrganizer

/-! ## Generic string helpers -/

/-- Substring test on character lists: does `sub` occur contiguously in the
second argument?  Mirrors the Python `in` operator on strings. -/
def listContainsSub (sub : List Char) : List Char → Bool
  | [] => sub.isEmpty
  | c :: cs => sub.isPrefixOf (c :: cs) || listContainsSub sub cs

/-- Substring test on strings: `containsStr s sub` mirrors Python
`sub in s`. -/
def containsStr (s sub : String) : Bool :=
  listContainsSub sub.data s.data

/-- Prefix test mirroring Python `s.startswith(pre)` (character-list based so
that the kernel can evaluate it). -/
def strStartsWith (s pre : String) : Bool :=
  pre.data.isPrefixOf s.data

/-- Lowercasing mirroring Python `s.lower()` on ASCII text (character-list
based so that the kernel can evaluate it). -/
def strToLower (s : String) : String :=
  String.mk (s.data.map Char.toLower)

/-! ## URL safety validator (`UnsubscribeHandler._is_safe_url`)

The validator parses the URL (Python `urllib.parse.urlparse`, restricted to
the scheme/netloc fields which are the only ones the source reads) and then
runs the fixed `SUSPICIOUS_PATTERNS` deny-list against the host. -/

/-- Number of leading ASCII digits, used for the `\d{1,3}` regex groups. -/
def digitCount (cs : List Char) : Nat :=
  (cs.takeWhile Char.isDigit).length

/-- Match one `\d{1,3}\.` group of the IPv4 regex at the head of the input,
returning the remainder after the dot.  A run of four or more digits cannot
match (greedy matching with backtracking also fails there, because the
character after any shorter digit prefix is still a digit, not a dot). -/
def ipGroupDot (cs : List Char) : Option (List Char) :=
  let n := digitCount cs
  if 1 ≤ n ∧ n ≤ 3 then
    match cs.drop n with
    | '.' :: rest => some rest
    | _ => none
  else none

/-- Match `\d{1,3}\.\d{1,3}\.\d{1,3}\.\d{1,3}` at the head of the input. -/
def ipv4At (cs : List Char) : Bool :=
  match ipGroupDot cs with
  | none => false
  | some cs1 =>
    match ipGroupDot cs1 with
    | none => false
    | some cs2 =>
      match ipGroupDot cs2 with
      | none => false
      | some cs3 => 1 ≤ digitCount cs3

/-- `re.search` of the IPv4 pattern: try every offset. -/
def searchIPv4 : List Char → Bool
  | [] => false
  | c :: cs => ipv4At (c :: cs) || searchIPv4 cs

/-- Character class `[a-z0-9-]` (the input is lowercased first, so the
`re.IGNORECASE` flag is accounted for). -/
def hostLabelChar (c : Char) : Bool :=
  c.isLower || c.isDigit || c = '-'

/-- Match `[a-z0-9-]+\.tk$` style patterns: the (lowercased) host ends with
the literal TLD suffix, preceded by at least one `[a-z0-9-]` character. -/
def endsWithFreeTld (tld : List Char) (cs : List Char) : Bool :=
  let r := cs.reverse
  let t := tld.reverse
  t.isPrefixOf r &&
    (match r.drop t.length with
     | c :: _ => hostLabelChar c
     | [] => false)

/-- The `SUSPICIOUS_PATTERNS` check of `_is_safe_url`: `re.search` of each
pattern against the netloc with `re.IGNORECASE` (modelled by lowercasing the
host, since every pattern is already lowercase). -/
def suspiciousHost (host : String) : Bool :=
  let h := (strToLower host).data
  searchIPv4 h ||
  endsWithFreeTld ".tk".data h ||
  endsWithFreeTld ".ml".data h ||
  listContainsSub "bit.ly".data h ||
  listContainsSub "tinyurl.com".data h ||
  listContainsSub "goo.gl".data h

/-- Characters allowed after the first in a URL scheme
(`[a-zA-Z0-9+.-]`, per `urllib.parse`). -/
def schemeChar (c : Char) : Bool :=
  c.isAlphanum || c = '+' || c = '-' || c = '.'

/-- Split a character list at the first colon, if any. -/
def splitOnColon : List Char → Option (List Char × List Char)
  | [] => none
  | ':' :: cs => some ([], cs)
  | c :: cs =>
    match splitOnColon cs with
    | some (pre, post) => some (c :: pre, post)
    | none => none

/-- A valid URL scheme is nonempty, starts with a letter, and continues with
scheme characters. -/
def validScheme (cs : List Char) : Bool :=
  match cs with
  | [] => false
  | c :: rest => c.isAlpha && rest.all schemeChar

/-- The scheme and network-location fields of `urllib.parse.urlparse`
(the only fields `_is_safe_url` reads).  An absent component is the empty
string, exactly as in Python. -/
structure ParsedUrl where
  scheme : String
  netloc : String
deriving DecidableEq

/-- The netloc is present only when the remainder (after the scheme, if any)
starts with `//`; it then extends to the next `/`, `?` or `#`. -/
def parseNetloc (cs : List Char) : List Char :=
  match cs with
  | '/' :: '/' :: rest => rest.takeWhile (fun c => !(c = '/' || c = '?' || c = '#'))
  | _ => []

/-- Shallow embedding of `urllib.parse.urlparse`, restricted to scheme and
netloc.  The scheme is lowercased (as `urlparse` does); if the text before
the first colon is not a valid scheme, the whole URL is treated as having no
scheme. -/
def urlparse_model (url : String) : ParsedUrl :=
  match splitOnColon url.data with
  | some (pre, post) =>
    if validScheme pre then
      { scheme := String.mk (pre.map Char.toLower), netloc := String.mk (parseNetloc post) }
    else
      { scheme := "", netloc := String.mk (parseNetloc url.data) }
  | none => { scheme := "", netloc := String.mk (parseNetloc url.data) }

/-- `UnsubscribeHandler._is_safe_url` (unsubscribe_handler.py lines 376-411):
empty URLs are unsafe, `mailto:` URLs are safe without further checks, and
an HTTP(S) URL is safe iff it has a scheme and a host and the host matches
no suspicious pattern. -/
def is_safe_url (url : String) : Bool :=
  if url = "" then false
  else if strStartsWith url "mailto:" then true
  else
    let parsed := urlparse_model url
    if parsed.scheme = "" || parsed.netloc = "" then false
    else if !(parsed.scheme = "http" || parsed.scheme = "https") then false
    else if suspiciousHost parsed.netloc then false
    else true

/-! ## Unsubscribe extraction (`UnsubscribeHandler.extract_unsubscribe_info`) -/

/-- The result dictionary of `extract_unsubscribe_info`: it always carries
exactly the keys `has_unsubscribe`, `method`, `url` and
`list_unsubscribe_post`. -/
structure UnsubscribeInfo where
  has_unsubscribe : Bool
  method : Option String
  url : Option String
  list_unsubscribe_post : Option String
deriving DecidableEq

/-- The Python dictionary lookup `headers.get(key, ...)` with an
empty-string default: exact, case-sensitive key comparison. -/
def headerGet (headers : List (String × String)) (key : String) : String :=
  match headers.find? (fun p => p.1 == key) with
  | some p => p.2
  | none => ""

/-- The `re.findall` scan of the pattern `<([^>]+)>`, with explicit fuel so that the
recursion is structural and kernel-reducible (each step consumes at least
one character, so `fuel = cs.length` is enough).  At a `<` the regex takes
the maximal run of non-`>` characters (taking fewer is never useful, since
the next character would still not be `>`), requires a closing `>`, and the
scan resumes after the match; a failed position is retried from the next
character. -/
def extractBracketedF : Nat → List Char → List (List Char)
  | 0, _ => []
  | _ + 1, [] => []
  | fuel + 1, '<' :: rest =>
    let content := rest.takeWhile (fun c => !(c = '>'))
    (match rest.drop content.length with
     | '>' :: rest2 =>
       if content.isEmpty then extractBracketedF fuel rest
       else content :: extractBracketedF fuel rest2
     | _ => extractBracketedF fuel rest)
  | fuel + 1, _ :: rest => extractBracketedF fuel rest

/-- The `re.findall` of the pattern `<([^>]+)>`: every nonempty bracketed chunk. -/
def extractBracketed (cs : List Char) : List (List Char) :=
  extractBracketedF cs.length cs

/-- Python whitespace class `\s` on ASCII text. -/
def pyIsSpace (c : Char) : Bool :=
  c = ' ' || c = '\t' || c = '\n' || c = '\r' || c = '\x0b' || c = '\x0c'

/-- The URL character class `[^\s<>"]` of `UNSUBSCRIBE_PATTERNS`. -/
def urlChar (c : Char) : Bool :=
  !(pyIsSpace c || c = '<' || c = '>' || c = '\"')

/-- A piece of the distinguishing word of a body pattern: a literal (stored
lowercase) or the optional separator `[_-]?`. -/
inductive WordPart where
  | lit (s : List Char)
  | optDash

/-- Consume a lowercase literal case-insensitively (`re.IGNORECASE`). -/
def dropLitCI : List Char → List Char → Option (List Char)
  | [], cs => some cs
  | _ :: _, [] => none
  | l :: ls, c :: cs => if c.toLower = l then dropLitCI ls cs else none

/-- Match a pattern word (e.g. `opt[_-]?out`) at the head of the input,
returning the number of characters consumed.  `optDash` is greedy with the
single backtracking step a regex engine would take. -/
def matchWord : List WordPart → List Char → Option Nat
  | [], _ => some 0
  | .lit l :: ps, cs =>
    match dropLitCI l cs with
    | some rest => (matchWord ps rest).map (fun n => l.length + n)
    | none => none
  | .optDash :: ps, [] => matchWord ps []
  | .optDash :: ps, c :: cs =>
    if c = '_' || c = '-' then
      match matchWord ps cs with
      | some n => some (n + 1)
      | none => matchWord ps (c :: cs)
    else matchWord ps (c :: cs)

/-- Consume `https?://` case-insensitively, returning the number of
characters consumed and the rest.  (Backtracking over the optional `s` never
helps: if `s` is present but not followed by `://`, the no-`s` branch would
need `:` where the `s` stands.) -/
def dropScheme (cs : List Char) : Option (Nat × List Char) :=
  match dropLitCI "http".data cs with
  | none => none
  | some cs1 =>
    match dropLitCI "s://".data cs1 with
    | some cs2 => some (8, cs2)
    | none =>
      match dropLitCI "://".data cs1 with
      | some cs2 => some (7, cs2)
      | none => none

/-- The lazy `[^\s<>"]+?` followed by the pattern word: the shortest
nonempty run of URL characters after which the word matches.  Returns the
total number of characters consumed (run plus word). -/
def findWordAfterClass (w : List WordPart) : List Char → Option Nat
  | [] => none
  | c :: cs =>
    if urlChar c then
      match matchWord w cs with
      | some n => some (1 + n)
      | none => (findWordAfterClass w cs).map (fun m => 1 + m)
    else none

/-- Match one full body pattern `https?://[^\s<>"]+?WORD[^\s<>"]*` at the
head of the input, returning the length of the match (the trailing star is
greedy and final, so it takes the maximal run). -/
def matchPatternAt (w : List WordPart) (cs : List Char) : Option Nat :=
  match dropScheme cs with
  | none => none
  | some (k, rest) =>
    match findWordAfterClass w rest with
    | none => none
    | some m => some (k + m + ((rest.drop m).takeWhile urlChar).length)

/-- The leftmost match of one pattern: `re.findall(pattern, body)[0]`. -/
def findFirstMatch (w : List WordPart) : List Char → Option (List Char)
  | [] => none
  | c :: cs =>
    match matchPatternAt w (c :: cs) with
    | some n => some ((c :: cs).take n)
    | none => findFirstMatch w cs

/-- `UnsubscribeHandler.UNSUBSCRIBE_PATTERNS` (lines 28-34), with the shared
`https?://[^\s<>"]+?` prefix and `[^\s<>"]*` suffix factored into
`matchPatternAt`; each entry is the distinguishing word. -/
def UNSUBSCRIBE_WORDS : List (List WordPart) :=
  [[.lit "unsubscribe".data],
   [.lit "opt".data, .optDash, .lit "out".data],
   [.lit "stop".data, .optDash, .lit "receiving".data],
   [.lit "manage".data, .optDash, .lit "preferences".data],
   [.lit "email".data, .optDash, .lit "preferences".data]]

/-- The characters the source strips from the end of a matched URL:
dot, comma, semicolon, colon and closing parenthesis. -/
def punctChar (c : Char) : Bool :=
  c = '.' || c = ',' || c = ';' || c = ':' || c = ')'

/-- The `rstrip` call of the source: drop every trailing punctuation
character of the set. -/
def rstripPunct (cs : List Char) : List Char :=
  (cs.reverse.dropWhile punctChar).reverse

/-- `UnsubscribeHandler._find_unsubscribe_in_body` (lines 128-145): try each
pattern in order, first pattern with a match wins, strip trailing
punctuation from the matched URL. -/
def find_unsubscribe_in_body (email_body : String) : Option String :=
  (UNSUBSCRIBE_WORDS.findSome? (fun w => findFirstMatch w email_body.data)).map
    (fun m => String.mk (rstripPunct m))

/-- The body-scan fallback of `extract_unsubscribe_info` (lines 118-126):
taken when the header block produced nothing. -/
def bodyCase (email_message : String) : UnsubscribeInfo :=
  match find_unsubscribe_in_body email_message with
  | some u => ⟨true, some "web", some u, none⟩
  | none => ⟨false, none, none, none⟩

/-- The `List-Unsubscribe` header block of `extract_unsubscribe_info`
(lines 86-116), applied to the bracketed URIs: one-click requires the
`List-Unsubscribe-Post` value to be nonempty and contain the literal
`List-Unsubscribe=One-Click` and some URI starting with `http`; then HTTP
GET, then mailto; if none hits, control falls through to the body scan. -/
def extractHeaderCase (email_message : String) (urls : List String)
    (list_unsubscribe_post : String) : UnsubscribeInfo :=
  match (if list_unsubscribe_post ≠ "" &&
           containsStr list_unsubscribe_post "List-Unsubscribe=One-Click"
         then urls.find? (fun u => strStartsWith u "http") else none) with
  | some u => ⟨true, some "one-click", some u, some list_unsubscribe_post⟩
  | none =>
    match urls.find? (fun u => strStartsWith u "http") with
    | some u => ⟨true, some "http", some u, none⟩
    | none =>
      match urls.find? (fun u => strStartsWith u "mailto:") with
      | some u => ⟨true, some "mailto", some u, none⟩
      | none => bodyCase email_message

/-- `extract_unsubscribe_info` after the two header lookups: the header
block runs only when `List-Unsubscribe` is nonempty (Python truthiness). -/
def extractCore (email_message list_unsubscribe list_unsubscribe_post : String) :
    UnsubscribeInfo :=
  if list_unsubscribe ≠ "" then
    extractHeaderCase email_message
      ((extractBracketed list_unsubscribe.data).map String.mk) list_unsubscribe_post
  else bodyCase email_message

/-- `UnsubscribeHandler.extract_unsubscribe_info` (lines 56-126).  Headers
are an optional association list (`headers=None` becomes `{}`). -/
def extract_unsubscribe_info (email_message : String)
    (headers : Option (List (String × String))) : UnsubscribeInfo :=
  extractCore email_message
    (headerGet (headers.getD []) "List-Unsubscribe")
    (headerGet (headers.getD []) "List-Unsubscribe-Post")

/-! ## Unsubscribe execution (`UnsubscribeHandler.unsubscribe`)

The network is an explicit oracle `HttpReq → HttpOutcome`; each embedded
function also returns the list of requests it issued, so that "no network
call is made" is a statement about that list. -/

/-- The result dictionary of `unsubscribe`. -/
structure UnsubResult where
  success : Bool
  method_used : Option String
  action_taken : String
  message : String
deriving DecidableEq

/-- An outbound HTTP request (`requests.post` / `requests.get`). -/
inductive HttpReq where
  | post (url : String)
  | get (url : String)
deriving DecidableEq

/-- What an outbound request can come back with: a status code, a timeout
(`requests.exceptions.Timeout`), a TLS verification failure
(`requests.exceptions.SSLError`), or any other exception with its text. -/
inductive HttpOutcome where
  | status (code : Nat)
  | timeout
  | sslError
  | exn (msg : String)
deriving DecidableEq

/-- Python `str(x)` on an optional string: `None` prints as `"None"`. -/
def optStr : Option String → String
  | some s => s
  | none => "None"

/-- `UnsubscribeHandler._unsubscribe_one_click` (lines 245-310): HTTP POST,
statuses 200/201/202/204 succeed, any other status fails with the code in
the message, timeouts and TLS failures fail with their own messages. -/
def unsubscribe_one_click (url : String) (http : HttpReq → HttpOutcome) :
    UnsubResult × List HttpReq :=
  match http (.post url) with
  | .status code =>
    if [200, 201, 202, 204].contains code then
      (⟨true, some "one-click", "automated-unsubscribe",
        "Successfully unsubscribed via one-click (status: " ++ toString code ++ ")"⟩,
        [.post url])
    else
      (⟨false, some "one-click", "failed",
        "Unsubscribe failed with status code: " ++ toString code⟩, [.post url])
  | .timeout => (⟨false, some "one-click", "failed", "Request timeout"⟩, [.post url])
  | .sslError =>
    (⟨false, some "one-click", "failed", "SSL certificate verification failed"⟩, [.post url])
  | .exn m => (⟨false, some "one-click", "failed", "Request failed: " ++ m⟩, [.post url])

/-- `UnsubscribeHandler._unsubscribe_http_get` (lines 312-374): same status
handling as one-click, but via GET. -/
def unsubscribe_http_get (url : String) (http : HttpReq → HttpOutcome) :
    UnsubResult × List HttpReq :=
  match http (.get url) with
  | .status code =>
    if [200, 201, 202, 204].contains code then
      (⟨true, some "http", "automated-unsubscribe",
        "Successfully unsubscribed via HTTP GET (status: " ++ toString code ++ ")"⟩,
        [.get url])
    else
      (⟨false, some "http", "failed",
        "Unsubscribe failed with status code: " ++ toString code⟩, [.get url])
  | .timeout => (⟨false, some "http", "failed", "Request timeout"⟩, [.get url])
  | .sslError =>
    (⟨false, some "http", "failed", "SSL certificate verification failed"⟩, [.get url])
  | .exn m => (⟨false, some "http", "failed", "Request failed: " ++ m⟩, [.get url])

/-- `UnsubscribeHandler.unsubscribe` (lines 176-243).  Order of the guards
is exactly the source order: no-unsubscribe check, URL safety check (Python
`if url and not self._is_safe_url(url)`, where an empty string is falsy),
dry-run short-circuit, then method dispatch. -/
def unsubscribe (info : UnsubscribeInfo) (email_id : String) (dry_run : Bool)
    (http : HttpReq → HttpOutcome) : UnsubResult × List HttpReq :=
  let base : UnsubResult := ⟨false, info.method, "none", ""⟩
  if !info.has_unsubscribe then
    ({ base with message := "No unsubscribe method found" }, [])
  else
    let url := info.url
    let method := info.method
    if (match url with | some u => u ≠ "" && !is_safe_url u | none => false) then
      ({ base with message := "URL failed safety validation (possible phishing)" }, [])
    else if dry_run then
      ({ base with
          success := true
          action_taken := "dry-run: would unsubscribe via " ++ optStr method
          message := "DRY RUN: Would unsubscribe using " ++ optStr method ++
            " method to " ++ optStr url }, [])
    else
      match method with
      | some "one-click" => unsubscribe_one_click (optStr url) http
      | some "http" => unsubscribe_http_get (optStr url) http
      | some "mailto" =>
        ({ base with
            action_taken := "manual-required"
            message := "Manual action required: Send email to " ++ optStr url }, [])
      | some "web" =>
        ({ base with
            action_taken := "manual-required"
            message := "Manual action required: Visit " ++ optStr url }, [])
      | _ =>
        ({ base with message := "Unsupported unsubscribe method: " ++ optStr method }, [])

/-! ## Triage loop (`main.main`, main.py lines 29-293)

The mailbox and classifier are oracles attached to each message: per
attempt number (0 = main pass, k = retry round k) the current label ids and
the classifier outcome.  `throttled` models an exception whose text matches
the rate-limit signature (the substring rate_limit_exceeded or 429 in the
stringified exception),
`errored` any other exception raised while processing the message; the
per-message side effects and the retry queue follow the source control flow
exactly. -/

/-- The two retention outcomes. -/
inductive RetentionAction where
  | keep
  | trash
deriving DecidableEq

/-- The retention decision at main.py lines 111 and 199:
`if category in config.CATEGORIES_TO_KEEP` (exact, case-sensitive list
membership). -/
def decideRetention (category : String) (categories_to_keep : List String) :
    RetentionAction :=
  if categories_to_keep.contains category then .keep else .trash

/-- Outcome of one classifier call on one message. -/
inductive ClassifyOutcome where
  | ok (category : String)
  | throttled
  | errored
deriving DecidableEq

/-- Per-message environment: current label ids and classifier outcome, both
indexed by attempt (labels can change between rounds through a concurrent
run, and throttling can clear). -/
structure EmailEnv where
  id : String
  labels : Nat → List String
  classify : Nat → ClassifyOutcome

/-- The configuration fields the loop reads. -/
structure RunConfig where
  CATEGORIES_TO_KEEP : List String
  RATE_LIMIT_DELAY : ℚ

/-- The counters of `main` (lines 57-62); `category_counts` is the dict in
insertion order. -/
structure RunState where
  processed_count : Nat := 0
  skipped_already_labeled : Nat := 0
  skipped_rate_limit : Nat := 0
  kept_count : Nat := 0
  trashed_count : Nat := 0
  category_counts : List (String × Nat) := []
deriving DecidableEq

/-- Observable actions of the loop, used to state what was (not) invoked. -/
inductive Event where
  | classifyCall (id : String)
  | skippedAlready (id : String)
  | throttleHit (id : String)
  | errorHit (id : String)
  | keptMsg (id : String) (category : String)
  | trashedMsg (id : String)
  | slept (seconds : ℚ)
deriving DecidableEq

/-- `category_counts[category] = category_counts.get(category, 0) + 1`. -/
def bumpCount : List (String × Nat) → String → List (String × Nat)
  | [], c => [(c, 1)]
  | (k, n) :: rest, c =>
    if k = c then (k, n + 1) :: rest else (k, n) :: bumpCount rest c

/-- `any(label_id in category_label_ids for label_id in existing_labels)`. -/
def anyLabelIn (category_label_ids : List String) (labels : List String) : Bool :=
  labels.any (fun l => category_label_ids.contains l)

/-- One iteration of the main pass (lines 77-148) on one message: the
idempotency skip (`continue` before the classifier call and before the
pacing sleep), then classification, retention action, and the inter-message
sleep (`idx < len(emails) - 1 and RATE_LIMIT_DELAY > 0`). -/
def mainStep (cfg : RunConfig) (catIds : List String) (total idx : Nat)
    (s : RunState) (q : List EmailEnv) (e : EmailEnv) :
    RunState × List EmailEnv × List Event :=
  if anyLabelIn catIds (e.labels 0) then
    ({ s with skipped_already_labeled := s.skipped_already_labeled + 1 }, q,
      [.skippedAlready e.id])
  else
    match e.classify 0 with
    | .ok category =>
      let s1 := { s with category_counts := bumpCount s.category_counts category }
      let se :=
        match decideRetention category cfg.CATEGORIES_TO_KEEP with
        | .keep => ({ s1 with kept_count := s1.kept_count + 1 }, Event.keptMsg e.id category)
        | .trash => ({ s1 with trashed_count := s1.trashed_count + 1 }, Event.trashedMsg e.id)
      let s3 := { se.1 with processed_count := se.1.processed_count + 1 }
      (s3, q,
        [.classifyCall e.id, se.2] ++
          (if idx < total - 1 ∧ 0 < cfg.RATE_LIMIT_DELAY then
            [.slept cfg.RATE_LIMIT_DELAY] else []))
    | .throttled => (s, q ++ [e], [.classifyCall e.id, .throttleHit e.id])
    | .errored => (s, q, [.classifyCall e.id, .errorHit e.id])

/-- The main pass fold over all fetched messages. -/
def mainPassAux (cfg : RunConfig) (catIds : List String) (total : Nat) :
    Nat → RunState → List EmailEnv → List EmailEnv →
    RunState × List EmailEnv × List Event
  | _, s, q, [] => (s, q, [])
  | idx, s, q, e :: es =>
    let r1 := mainStep cfg catIds total idx s q e
    let r2 := mainPassAux cfg catIds total (idx + 1) r1.1 r1.2.1 es
    (r2.1, r2.2.1, r1.2.2 ++ r2.2.2)

/-- One iteration of a retry round (lines 170-232) on one queued message:
re-check idempotency, classify again, act, and sleep `retry_delay` between
queued messages (`email_idx < len(rate_limited_emails) - 1`); still-throttled
messages go to `remaining`, other failures are dropped. -/
def retryStep (cfg : RunConfig) (catIds : List String) (attempt : Nat)
    (retry_delay : ℚ) (qlen email_idx : Nat) (s : RunState)
    (remaining : List EmailEnv) (e : EmailEnv) :
    RunState × List EmailEnv × List Event :=
  if anyLabelIn catIds (e.labels attempt) then
    ({ s with skipped_already_labeled := s.skipped_already_labeled + 1 }, remaining,
      [.skippedAlready e.id])
  else
    match e.classify attempt with
    | .ok category =>
      let s1 := { s with category_counts := bumpCount s.category_counts category }
      let se :=
        match decideRetention category cfg.CATEGORIES_TO_KEEP with
        | .keep => ({ s1 with kept_count := s1.kept_count + 1 }, Event.keptMsg e.id category)
        | .trash => ({ s1 with trashed_count := s1.trashed_count + 1 }, Event.trashedMsg e.id)
      let s3 := { se.1 with processed_count := se.1.processed_count + 1 }
      (s3, remaining,
        [.classifyCall e.id, se.2] ++
          (if email_idx < qlen - 1 then [.slept retry_delay] else []))
    | .throttled => (s, remaining ++ [e], [.classifyCall e.id, .throttleHit e.id])
    | .errored => (s, remaining, [.classifyCall e.id, .errorHit e.id])

/-- The fold of one retry round over the queued messages. -/
def retryRoundAux (cfg : RunConfig) (catIds : List String) (attempt : Nat)
    (retry_delay : ℚ) (qlen : Nat) :
    Nat → RunState → List EmailEnv → List EmailEnv →
    RunState × List EmailEnv × List Event
  | _, s, rem, [] => (s, rem, [])
  | email_idx, s, rem, e :: es =>
    let r1 := retryStep cfg catIds attempt retry_delay qlen email_idx s rem e
    let r2 := retryRoundAux cfg catIds attempt retry_delay qlen (email_idx + 1) r1.1 r1.2.1 es
    (r2.1, r2.2.1, r1.2.2 ++ r2.2.2)

/-- One full retry round over the current queue. -/
def retryRound (cfg : RunConfig) (catIds : List String) (attempt : Nat)
    (retry_delay : ℚ) (s : RunState) (q : List EmailEnv) :
    RunState × List EmailEnv × List Event :=
  retryRoundAux cfg catIds attempt retry_delay q.length 0 s [] q

/-- The bounded retry loop (lines 159-240): up to `max_retries` rounds, each
preceded by `time.sleep(retry_delay)` (recorded in the returned wait list),
doubling the delay after each round that leaves the queue nonempty, and
breaking as soon as the queue empties. -/
def retryLoop (cfg : RunConfig) (catIds : List String) :
    Nat → Nat → ℚ → RunState → List EmailEnv →
    RunState × List EmailEnv × List ℚ × List Event
  | 0, _, _, s, q => (s, q, [], [])
  | rounds + 1, attempt, retry_delay, s, q =>
    if q.isEmpty then (s, q, [], [])
    else
      let r1 := retryRound cfg catIds attempt retry_delay s q
      let retry_delay2 := if r1.2.1.isEmpty then retry_delay else retry_delay * 2
      let r2 := retryLoop cfg catIds rounds (attempt + 1) retry_delay2 r1.1 r1.2.1
      (r2.1, r2.2.1, retry_delay :: r2.2.2.1,
        .slept retry_delay :: (r1.2.2 ++ r2.2.2.2))

/-- Everything one call of `main` produces that the claims talk about. -/
structure RunResult where
  state : RunState
  fetched : Nat
  finalQueue : List EmailEnv
  retryWaits : List ℚ
  trace : List Event

/-- The whole pass (lines 57-246): main loop, then — only when the queue is
nonempty — up to `max_retries = 3` retry rounds with initial delay
`RATE_LIMIT_DELAY * 3`, with the leftover queue counted as
`skipped_rate_limit`. -/
def processInbox (cfg : RunConfig) (catIds : List String)
    (emails : List EmailEnv) : RunResult :=
  let r1 := mainPassAux cfg catIds emails.length 0 {} [] emails
  if r1.2.1.isEmpty then
    { state := r1.1, fetched := emails.length, finalQueue := r1.2.1,
      retryWaits := [], trace := r1.2.2 }
  else
    let r2 := retryLoop cfg catIds 3 1 (cfg.RATE_LIMIT_DELAY * 3) r1.1 r1.2.1
    { state := { r2.1 with skipped_rate_limit := r2.2.1.length },
      fetched := emails.length, finalQueue := r2.2.1,
      retryWaits := r2.2.2.1, trace := r1.2.2 ++ r2.2.2.2 }

/-- A queued message goes to the next round iff it is not already labeled
and its classifier call throttled again (retryStep, lines 170-232). -/
def stillThrottled (catIds : List String) (attempt : Nat) (e : EmailEnv) : Bool :=
  !anyLabelIn catIds (e.labels attempt) &&
    (match e.classify attempt with | .throttled => true | _ => false)

/-- A message whose labels and classifier outcome never change between
attempts; used to build concrete runs. -/
def constEnv (i : String) (labels : List String) (o : ClassifyOutcome) : EmailEnv :=
  ⟨i, fun _ => labels, fun _ => o⟩

/-- Number of non-throttle failures in a trace. -/
def countErrors (trace : List Event) : Nat :=
  trace.countP (fun ev => match ev with | .errorHit _ => true | _ => false)

/-! ## Run summary (main.py lines 249-289)

The printed report, modelled as the list of output lines (each `print` and
the final `logger.info` message contribute their text; a leading `\n` in a
print becomes an empty line). -/

/-- `f"{s:<width>}"` left-aligned padding (Python pads only, never
truncates). -/
def padRight (width : Nat) (s : String) : String :=
  s ++ String.mk (List.replicate (width - s.length) ' ')

/-- `f"{s:>width}"` right-aligned padding for numbers. -/
def padLeft (width : Nat) (s : String) : String :=
  String.mk (List.replicate (width - s.length) ' ') ++ s

/-- `"=" * 70`. -/
def sepLine : String := String.mk (List.replicate 70 '=')

/-- `"-" * 70`. -/
def dashLine : String := String.mk (List.replicate 70 '-')

/-- `category_counts[category]` (with default 0, though the key is always
present when the renderer looks it up). -/
def lookupCount (counts : List (String × Nat)) (c : String) : Nat :=
  match counts.find? (fun p => p.1 == c) with
  | some p => p.2
  | none => 0

/-- Lexicographic comparison by code point, as Python string `<`. -/
def charListLt : List Char → List Char → Bool
  | [], [] => false
  | [], _ :: _ => true
  | _ :: _, [] => false
  | a :: as, b :: bs =>
    a.toNat < b.toNat || (a.toNat = b.toNat && charListLt as bs)

/-- Insert into a sorted list of strings. -/
def insertSorted (x : String) : List String → List String
  | [] => [x]
  | y :: ys => if charListLt x.data y.data then x :: y :: ys else y :: insertSorted x ys

/-- `sorted(category_counts.keys())`. -/
def sortStrings : List String → List String
  | [] => []
  | x :: xs => insertSorted x (sortStrings xs)

/-- `f"  {category:15} {count:3} emails  →  {action}"` (line 259). -/
def categoryLine (keep : List String) (counts : List (String × Nat))
    (category : String) : String :=
  let count := lookupCount counts category
  let action := if keep.contains category then "✓ KEPT" else "✗ TRASHED"
  "  " ++ padRight 15 category ++ " " ++ padLeft 3 (toString count) ++
    " emails  →  " ++ action

/-- `", ".join(parts)`. -/
def joinComma : List String → String
  | [] => ""
  | [x] => x
  | x :: xs => x ++ ", " ++ joinComma xs

/-- The `summary_msg` built at lines 280-289. -/
def summaryMsg (s : RunState) (fetched : Nat) : String :=
  let parts :=
    (if 0 < s.skipped_already_labeled then
      [toString s.skipped_already_labeled ++ " already labeled"] else []) ++
    (if 0 < s.skipped_rate_limit then
      [toString s.skipped_rate_limit ++ " failed after retries"] else [])
  let base := "Email organization complete! Processed " ++
    toString s.processed_count ++ " out of " ++ toString fetched ++ " emails."
  if parts.isEmpty then base
  else base ++ " (Skipped: " ++ joinComma parts ++ ")"

/-- The full run summary (print block at lines 249-277 plus the summary log
message at lines 280-289), line by line, with every conditional of the
source: per-category lines and kept/trashed/processed/fetched totals only
when at least one message was categorized, and each skipped line only when
its counter is positive. -/
def renderSummary (keep : List String) (fetched : Nat) (s : RunState) :
    List String :=
  ["", sepLine, "CATEGORIZATION RESULTS", sepLine] ++
  (if s.category_counts.isEmpty then
    ["", "No emails were processed."] ++
    (if 0 < s.skipped_already_labeled then
      [toString s.skipped_already_labeled ++ " emails skipped (already labeled)"]
     else []) ++
    (if 0 < s.skipped_rate_limit then
      [toString s.skipped_rate_limit ++
        " emails skipped (rate limits - failed after retries)"]
     else [])
   else
    ["", "Emails by Category:", dashLine] ++
    (sortStrings (s.category_counts.map Prod.fst)).map (categoryLine keep s.category_counts) ++
    [dashLine, "", "Total Fetched:    " ++ toString fetched ++ " emails"] ++
    (if 0 < s.skipped_already_labeled then
      ["  ⊜ Skipped:      " ++ toString s.skipped_already_labeled ++
        " emails (already labeled)"]
     else []) ++
    (if 0 < s.skipped_rate_limit then
      ["  ⚠ Skipped:      " ++ toString s.skipped_rate_limit ++
        " emails (rate limits - failed after retries)"]
     else []) ++
    ["  ✓ Kept:         " ++ toString s.kept_count ++ " emails (labeled & archived)",
     "  ✗ Trashed:      " ++ toString s.trashed_count ++ " emails (moved to trash)",
     "Total Processed:  " ++ toString s.processed_count ++ " emails"]) ++
  [sepLine, ""] ++
  [summaryMsg s fetched]

/-- The summary a completed pass prints, as a function of the run. -/
def runSummaryLines (cfg : RunConfig) (catIds : List String)
    (emails : List EmailEnv) : List String :=
  let r := processInbox cfg catIds emails
  renderSummary cfg.CATEGORIES_TO_KEEP r.fetched r.state


/-! # Theorems -/

/-! ## Helper lemmas -/

theorem listContainsSub_self_append (sub rest : List Char) :
    listContainsSub sub (sub ++ rest) = true := by
  cases sub with
  | nil =>
    cases rest with
    | nil => rfl
    | cons c cs => simp [listContainsSub]
  | cons c cs =>
    have h : (c :: cs).isPrefixOf (c :: cs ++ rest) = true :=
      List.isPrefixOf_iff_prefix.mpr ⟨rest, rfl⟩
    simp [listContainsSub, h]

theorem listContainsSub_append_self (pre sub : List Char) :
    listContainsSub sub (pre ++ sub) = true := by
  induction pre with
  | nil => simpa using listContainsSub_self_append sub []
  | cons p ps ih => simp [listContainsSub, ih]

theorem containsStr_dry_run_lit (m : String) :
    containsStr ("dry-run: would unsubscribe via " ++ m) "dry-run" = true := by
  unfold containsStr
  rw [String.data_append]
  have h : ("dry-run: would unsubscribe via ").data =
      "dry-run".data ++ ": would unsubscribe via ".data := by decide
  rw [h, List.append_assoc]
  exact listContainsSub_self_append _ _

/-- Claim C5: the URL safety validator rejects `http://192.168.1.1/unsubscribe`,
`http://foo.tk/x` and `http://bit.ly/x` and accepts
`https://example.com/unsubscribe` and `mailto:a@b.com`; more generally every
URL starting with `mailto:` is safe, every other URL lacking a scheme or host
or with a non-HTTP(S) scheme is unsafe, and every other URL whose host matches
a pattern of the fixed deny-list (IPv4 literal, `.tk`, `.ml`, `bit.ly`,
`tinyurl.com`, `goo.gl`) is unsafe. -/
theorem c5_is_safe_url :
    is_safe_url "http://192.168.1.1/unsubscribe" = false ∧
    is_safe_url "http://foo.tk/x" = false ∧
    is_safe_url "http://bit.ly/x" = false ∧
    is_safe_url "https://example.com/unsubscribe" = true ∧
    is_safe_url "mailto:a@b.com" = true ∧
    (∀ url : String, strStartsWith url "mailto:" = true → is_safe_url url = true) ∧
    (∀ url : String, strStartsWith url "mailto:" = false →
      ((urlparse_model url).scheme = "" ∨ (urlparse_model url).netloc = "" ∨
        ((urlparse_model url).scheme ≠ "http" ∧ (urlparse_model url).scheme ≠ "https")) →
      is_safe_url url = false) ∧
    (∀ url : String, strStartsWith url "mailto:" = false →
      suspiciousHost (urlparse_model url).netloc = true →
      is_safe_url url = false) := by
  refine ⟨by decide, by decide, by decide, by decide, by decide, ?_, ?_, ?_⟩
  · intro url h
    by_cases h0 : url = ""
    · subst h0; exact absurd h (by decide)
    · simp [is_safe_url, h0, h]
  · intro url h hd
    by_cases h0 : url = ""
    · simp [is_safe_url, h0]
    · simp only [is_safe_url, if_neg h0, h, Bool.false_eq_true, if_false]
      split
      · rfl
      · split
        · rfl
        · rename_i hA hB
          exfalso
          rcases hd with h1 | h1 | ⟨h1, h2⟩
          · exact hA (by simp [h1])
          · exact hA (by simp [h1])
          · exact hB (by simp [h1, h2])
  · intro url h hs
    by_cases h0 : url = ""
    · simp [is_safe_url, h0]
    · simp only [is_safe_url, if_neg h0, h, Bool.false_eq_true, if_false]
      split
      · rfl
      · split
        · rfl
        · simp [hs]

theorem c5_is_safe_url_witness :
    strStartsWith "mailto:a@b.com" "mailto:" = true ∧
    is_safe_url "mailto:a@b.com" = true ∧
    strStartsWith "ftp://example.com/x" "mailto:" = false ∧
    is_safe_url "ftp://example.com/x" = false ∧
    strStartsWith "http://tinyurl.com/x" "mailto:" = false ∧
    suspiciousHost (urlparse_model "http://tinyurl.com/x").netloc = true ∧
    is_safe_url "http://tinyurl.com/x" = false :=
  ⟨by decide, c5_is_safe_url.2.2.2.2.2.1 _ (by decide), by decide,
    c5_is_safe_url.2.2.2.2.2.2.1 _ (by decide) (Or.inr (Or.inr ⟨by decide, by decide⟩)),
    by decide, by decide, c5_is_safe_url.2.2.2.2.2.2.2 _ (by decide) (by decide)⟩

/-- Claim C2: the retention decision is Keep exactly when the classified
category is (case-sensitively) a member of the configured keep-list; unknown
or differently-cased category names are trashed, with no fuzzy matching. -/
theorem c2_retention_exact_match :
    (∀ (category : String) (keep : List String),
      decideRetention category keep = RetentionAction.keep ↔ category ∈ keep) ∧
    decideRetention "notes" ["Notes", "Github"] = RetentionAction.trash ∧
    decideRetention "Spam" ["Notes", "Github"] = RetentionAction.trash := by
  refine ⟨?_, by decide, by decide⟩
  intro c keep
  by_cases h : c ∈ keep
  · have hc : keep.contains c = true := by simpa using h
    simp [decideRetention, hc, h]
  · have hc : keep.contains c = false := by simpa using h
    simp [decideRetention, hc, h]

theorem c2_retention_witness :
    decideRetention "Notes" ["Notes", "Github"] = RetentionAction.keep :=
  (c2_retention_exact_match.1 "Notes" ["Notes", "Github"]).mpr (by decide)

/-- Claim C4 counterexample: the claim says `unsubscribe` with dry-run always
returns success with a dry-run action for every `UnsubscribeInfo` input, but
for an input whose `has_unsubscribe` is false the source returns before the
dry-run branch with success false, action `none`, and no dry-run marker
(and correspondingly a safety-rejected URL also returns success false). -/
theorem c4_counterexample :
    (unsubscribe ⟨false, none, none, none⟩ "m1" true (fun _ => HttpOutcome.timeout)).1 =
      ⟨false, none, "none", "No unsubscribe method found"⟩ ∧
    containsStr
      (unsubscribe ⟨false, none, none, none⟩ "m1" true
        (fun _ => HttpOutcome.timeout)).1.action_taken "dry-run" = false :=
  ⟨by decide, by decide⟩

/-- Claim C4 amended: `unsubscribe` with dry-run never issues a network call
for any input; and for every input that reaches the dry-run branch — one with
`has_unsubscribe` true whose URL is absent, empty, or passes `_is_safe_url` —
the result has success true and an action string containing `dry-run`,
regardless of the method. -/
theorem c4_dry_run_amended :
    ∀ (info : UnsubscribeInfo) (email_id : String) (http : HttpReq → HttpOutcome),
      (unsubscribe info email_id true http).2 = [] ∧
      (info.has_unsubscribe = true →
        (∀ u, info.url = some u → u ≠ "" → is_safe_url u = true) →
        (unsubscribe info email_id true http).1.success = true ∧
        containsStr (unsubscribe info email_id true http).1.action_taken "dry-run" = true) := by
  intro info email_id http
  obtain ⟨has, method, url, post⟩ := info
  constructor
  · cases has
    · rfl
    · cases url with
      | none => rfl
      | some u =>
        by_cases he : u = ""
        · subst he; rfl
        · by_cases hs : is_safe_url u = true
          · simp [unsubscribe, he, hs]
          · simp [unsubscribe, he, hs]
  · intro hhas hsafe
    cases has
    · exact Bool.noConfusion hhas
    · cases url with
      | none => exact ⟨rfl, containsStr_dry_run_lit _⟩
      | some u =>
        have hu : u ≠ "" → is_safe_url u = true := hsafe u rfl
        by_cases he : u = ""
        · subst he
          exact ⟨rfl, containsStr_dry_run_lit _⟩
        · simp [unsubscribe, he, hu he, containsStr_dry_run_lit]

theorem c4_dry_run_witness :
    (unsubscribe ⟨true, some "one-click", some "https://x/y", some "p"⟩ "m2" true
      (fun _ => HttpOutcome.status 500)).2 = [] ∧
    (unsubscribe ⟨true, some "one-click", some "https://x/y", some "p"⟩ "m2" true
      (fun _ => HttpOutcome.status 500)).1.success = true ∧
    containsStr
      (unsubscribe ⟨true, some "one-click", some "https://x/y", some "p"⟩ "m2" true
        (fun _ => HttpOutcome.status 500)).1.action_taken "dry-run" = true := by
  refine ⟨(c4_dry_run_amended _ "m2" _).1, ?_⟩
  have h := (c4_dry_run_amended ⟨true, some "one-click", some "https://x/y", some "p"⟩ "m2"
    (fun _ => HttpOutcome.status 500)).2 (by decide)
    (by intro u hu hne; injection hu with h1; subst h1; decide)
  exact h

/-- Claim C8: a one-click unsubscribe receiving an HTTP status outside
{200, 201, 202, 204} (e.g. 500) yields success false, action `failed`, and a
message carrying the status code as a string; statuses 200/201/202/204 yield
success true; a timeout and a TLS verification failure yield success false
with distinct messages. -/
theorem c8_one_click_status :
    ∀ (url : String) (http : HttpReq → HttpOutcome) (code : Nat),
      (http (HttpReq.post url) = HttpOutcome.status code →
        (code ∉ [200, 201, 202, 204] →
          (unsubscribe_one_click url http).1.success = false ∧
          (unsubscribe_one_click url http).1.action_taken = "failed" ∧
          (unsubscribe_one_click url http).1.message =
            "Unsubscribe failed with status code: " ++ toString code ∧
          containsStr (unsubscribe_one_click url http).1.message (toString code) = true) ∧
        (code ∈ [200, 201, 202, 204] →
          (unsubscribe_one_click url http).1.success = true)) ∧
      (http (HttpReq.post url) = HttpOutcome.timeout →
        (unsubscribe_one_click url http).1 =
          ⟨false, some "one-click", "failed", "Request timeout"⟩) ∧
      (http (HttpReq.post url) = HttpOutcome.sslError →
        (unsubscribe_one_click url http).1 =
          ⟨false, some "one-click", "failed", "SSL certificate verification failed"⟩) ∧
      ("Request timeout" : String) ≠ "SSL certificate verification failed" := by
  intro url http code
  refine ⟨?_, ?_, ?_, by decide⟩
  · intro hresp
    constructor
    · intro hnot
      have hc : [200, 201, 202, 204].contains code = false := by simpa using hnot
      have hmain : (unsubscribe_one_click url http).1 =
          ⟨false, some "one-click", "failed",
            "Unsubscribe failed with status code: " ++ toString code⟩ := by
        unfold unsubscribe_one_click
        simp only [hresp]
        rw [hc]
        rfl
      rw [hmain]
      refine ⟨rfl, rfl, rfl, ?_⟩
      unfold containsStr
      rw [String.data_append]
      exact listContainsSub_append_self _ _
    · intro hmem
      have hc : [200, 201, 202, 204].contains code = true := by simpa using hmem
      unfold unsubscribe_one_click
      simp only [hresp]
      rw [hc]
      rfl
  · intro hresp
    unfold unsubscribe_one_click
    simp only [hresp]
  · intro hresp
    unfold unsubscribe_one_click
    simp only [hresp]

theorem c8_one_click_witness :
    (unsubscribe_one_click "https://x/y" (fun _ => HttpOutcome.status 500)).1.success = false ∧
    (unsubscribe_one_click "https://x/y" (fun _ => HttpOutcome.status 500)).1.action_taken = "failed" ∧
    containsStr (unsubscribe_one_click "https://x/y"
      (fun _ => HttpOutcome.status 500)).1.message "500" = true ∧
    (unsubscribe_one_click "https://x/y" (fun _ => HttpOutcome.status 200)).1.success = true ∧
    (unsubscribe_one_click "https://x/y" (fun _ => HttpOutcome.timeout)).1.message =
      "Request timeout" := by
  have h5 := ((c8_one_click_status "https://x/y" (fun _ => HttpOutcome.status 500) 500).1
    rfl).1 (by decide)
  have h2 := ((c8_one_click_status "https://x/y" (fun _ => HttpOutcome.status 200) 200).1
    rfl).2 (by decide)
  have ht := (c8_one_click_status "https://x/y" (fun _ => HttpOutcome.timeout) 0).2.1 rfl
  exact ⟨h5.1, h5.2.1, h5.2.2.2, h2, by rw [ht]⟩

/-- Case analysis on every return site of `extract_unsubscribe_info`. -/
theorem extract_cases (msg : String) (headers : Option (List (String × String))) :
    extract_unsubscribe_info msg headers = ⟨false, none, none, none⟩ ∨
    (∃ u p, extract_unsubscribe_info msg headers = ⟨true, some "one-click", some u, some p⟩) ∨
    (∃ u, extract_unsubscribe_info msg headers = ⟨true, some "http", some u, none⟩) ∨
    (∃ u, extract_unsubscribe_info msg headers = ⟨true, some "mailto", some u, none⟩) ∨
    (∃ u, extract_unsubscribe_info msg headers = ⟨true, some "web", some u, none⟩) := by
  have hbody : ∀ m : String, bodyCase m = ⟨false, none, none, none⟩ ∨
      ∃ u, bodyCase m = ⟨true, some "web", some u, none⟩ := by
    intro m
    unfold bodyCase
    split
    · right; exact ⟨_, rfl⟩
    · left; rfl
  unfold extract_unsubscribe_info extractCore
  split
  · unfold extractHeaderCase
    split
    · right; left; exact ⟨_, _, rfl⟩
    · split
      · right; right; left; exact ⟨_, rfl⟩
      · split
        · right; right; right; left; exact ⟨_, rfl⟩
        · rcases hbody msg with h | ⟨u, h⟩
          · left; exact h
          · right; right; right; right; exact ⟨u, h⟩
  · rcases hbody msg with h | ⟨u, h⟩
    · left; exact h
    · right; right; right; right; exact ⟨u, h⟩

/-- Claim C10: for every body string and headers argument (with `None`
treated as the empty header set), `extract_unsubscribe_info` returns a record
with exactly the four fields of `UnsubscribeInfo`, in which
`has_unsubscribe` is true exactly when `method` is set, exactly when `url`
is set; and when `has_unsubscribe` is false the method, url and
`list_unsubscribe_post` fields are all `none`. -/
theorem c10_extract_invariant :
    (∀ msg : String,
      extract_unsubscribe_info msg none = extract_unsubscribe_info msg (some [])) ∧
    ∀ (msg : String) (headers : Option (List (String × String))),
      ((extract_unsubscribe_info msg headers).has_unsubscribe = true ↔
        (extract_unsubscribe_info msg headers).method ≠ none) ∧
      ((extract_unsubscribe_info msg headers).has_unsubscribe = true ↔
        (extract_unsubscribe_info msg headers).url ≠ none) ∧
      ((extract_unsubscribe_info msg headers).has_unsubscribe = false →
        (extract_unsubscribe_info msg headers).method = none ∧
        (extract_unsubscribe_info msg headers).url = none ∧
        (extract_unsubscribe_info msg headers).list_unsubscribe_post = none) := by
  refine ⟨fun msg => rfl, ?_⟩
  intro msg headers
  rcases extract_cases msg headers with h | ⟨u, p, h⟩ | ⟨u, h⟩ | ⟨u, h⟩ | ⟨u, h⟩ <;>
    rw [h] <;> exact ⟨by simp, by simp, by simp⟩

theorem c10_extract_witness :
    (extract_unsubscribe_info "" none).has_unsubscribe = false ∧
    (extract_unsubscribe_info "" none).method = none ∧
    (extract_unsubscribe_info "" none).url = none ∧
    (extract_unsubscribe_info "" none).list_unsubscribe_post = none :=
  ⟨by decide, (c10_extract_invariant.2 "" none).2.2 (by decide)⟩

theorem bodyCase_method_ne_oneClick (m : String) :
    (bodyCase m).method ≠ some "one-click" := by
  unfold bodyCase
  split <;> simp

theorem headerCase_oneClick (m : String) (urls : List String) (post : String) :
    (extractHeaderCase m urls post).method = some "one-click" →
    post ≠ "" ∧ containsStr post "List-Unsubscribe=One-Click" = true ∧
    ∃ u, u ∈ urls ∧ strStartsWith u "http" = true ∧
      extractHeaderCase m urls post = ⟨true, some "one-click", some u, some post⟩ := by
  unfold extractHeaderCase
  split
  case h_1 u heq =>
    intro _
    split at heq
    case isTrue hc =>
      have h1 := List.find?_some heq
      have h2 := List.mem_of_find?_eq_some heq
      rw [Bool.and_eq_true] at hc
      exact ⟨by simpa using hc.1, hc.2, u, h2, h1, rfl⟩
    case isFalse => exact absurd heq (by simp)
  case h_2 =>
    intro hmethod
    exfalso
    split at hmethod
    · simp at hmethod
    · split at hmethod
      · simp at hmethod
      · exact bodyCase_method_ne_oneClick m hmethod

/-- Claim C6 counterexample: the claim says one-click is selected only when
some bracketed URI uses an HTTP(S) scheme, but the source only tests
`startswith("http")`: a header set whose sole bracketed URI is
`httpfake://evil.example` (scheme `httpfake`, not HTTP(S)) still yields
method one-click with that URI. -/
theorem c6_counterexample :
    extract_unsubscribe_info ""
      (some [("List-Unsubscribe", "<httpfake://evil.example>"),
             ("List-Unsubscribe-Post", "List-Unsubscribe=One-Click")]) =
      ⟨true, some "one-click", some "httpfake://evil.example",
        some "List-Unsubscribe=One-Click"⟩ ∧
    (urlparse_model "httpfake://evil.example").scheme = "httpfake" ∧
    extractBracketed "<httpfake://evil.example>".data = ["httpfake://evil.example".data] :=
  ⟨by decide, by decide, by decide⟩

/-- Claim C6 amended: on headers carrying `List-Unsubscribe: <https://x/y>`
and `List-Unsubscribe-Post: List-Unsubscribe=One-Click` extraction returns
one-click with that URL and carries the post-header value forward; and in
general one-click is selected only when the post header is nonempty and
contains `List-Unsubscribe=One-Click` and some bracketed URI starts with the
literal string `http` (not necessarily an HTTP(S) scheme), that URI becoming
the result URL. -/
theorem c6_one_click_amended :
    (extract_unsubscribe_info ""
      (some [("List-Unsubscribe", "<https://x/y>"),
             ("List-Unsubscribe-Post", "List-Unsubscribe=One-Click")]) =
      ⟨true, some "one-click", some "https://x/y", some "List-Unsubscribe=One-Click"⟩) ∧
    ∀ (msg : String) (headers : Option (List (String × String))),
      (extract_unsubscribe_info msg headers).method = some "one-click" →
      headerGet (headers.getD []) "List-Unsubscribe-Post" ≠ "" ∧
      containsStr (headerGet (headers.getD []) "List-Unsubscribe-Post")
        "List-Unsubscribe=One-Click" = true ∧
      ∃ u, u ∈ (extractBracketed
          (headerGet (headers.getD []) "List-Unsubscribe").data).map String.mk ∧
        strStartsWith u "http" = true ∧
        (extract_unsubscribe_info msg headers).url = some u ∧
        (extract_unsubscribe_info msg headers).list_unsubscribe_post =
          some (headerGet (headers.getD []) "List-Unsubscribe-Post") := by
  refine ⟨by decide, ?_⟩
  intro msg headers h
  have hcore : (extractCore msg (headerGet (headers.getD []) "List-Unsubscribe")
      (headerGet (headers.getD []) "List-Unsubscribe-Post")).method = some "one-click" := h
  unfold extractCore at hcore
  split at hcore
  case isTrue hne =>
    obtain ⟨hp1, hp2, u, hu, hs, heq⟩ := headerCase_oneClick _ _ _ hcore
    refine ⟨hp1, hp2, u, hu, hs, ?_, ?_⟩
    · show (extractCore msg _ _).url = some u
      unfold extractCore
      rw [if_pos hne, heq]
    · show (extractCore msg _ _).list_unsubscribe_post = some _
      unfold extractCore
      rw [if_pos hne, heq]
  case isFalse =>
    exact absurd hcore (bodyCase_method_ne_oneClick msg)

theorem head_dropWhile_not (p : Char → Bool) (l : List Char) (c : Char)
    (h : (l.dropWhile p).head? = some c) : p c = false := by
  induction l with
  | nil => simp [List.dropWhile] at h
  | cons a as ih =>
    by_cases hp : p a = true
    · rw [List.dropWhile_cons_of_pos hp] at h
      exact ih h
    · rw [List.dropWhile_cons_of_neg hp] at h
      simp at h
      subst h
      simpa using hp

/-- Claim C7: with no headers and a body containing
`https://example.com/unsubscribe?id=123`, extraction returns method web with
the URL ending exactly at the query string; matching is case-insensitive; the
first pattern of the fixed ordered list that matches wins; and trailing
punctuation (dot, comma, semicolon, colon, closing parenthesis) is stripped,
so a returned URL never ends in such a character. -/
theorem c7_body_extraction :
    extract_unsubscribe_info "Click https://example.com/unsubscribe?id=123. Thanks" none =
      ⟨true, some "web", some "https://example.com/unsubscribe?id=123", none⟩ ∧
    find_unsubscribe_in_body "See HTTP://X.IO/UNSUBSCRIBE now" =
      some "HTTP://X.IO/UNSUBSCRIBE" ∧
    (∀ (body : String) (m : List Char),
      findFirstMatch [WordPart.lit "unsubscribe".data] body.data = some m →
      find_unsubscribe_in_body body = some (String.mk (rstripPunct m))) ∧
    (∀ (body u : String) (c : Char),
      find_unsubscribe_in_body body = some u →
      u.data.getLast? = some c → punctChar c = false) := by
  refine ⟨by decide, by decide, ?_, ?_⟩
  · intro body m h
    unfold find_unsubscribe_in_body UNSUBSCRIBE_WORDS
    simp [List.findSome?_cons, h]
  · intro body u c h hc
    unfold find_unsubscribe_in_body at h
    cases hfs : List.findSome? (fun w => findFirstMatch w body.data) UNSUBSCRIBE_WORDS with
    | none => rw [hfs] at h; simp at h
    | some m =>
      rw [hfs] at h
      have h2 : some (String.mk (rstripPunct m)) = some u := h
      injection h2 with h2
      subst h2
      have hc2 : (rstripPunct m).getLast? = some c := hc
      unfold rstripPunct at hc2
      rw [List.getLast?_reverse] at hc2
      exact head_dropWhile_not _ _ _ hc2

theorem c7_body_witness :
    find_unsubscribe_in_body "x https://e.co/unsubscribe. y" =
      some (String.mk (rstripPunct "https://e.co/unsubscribe.".data)) ∧
    punctChar 'e' = false :=
  ⟨c7_body_extraction.2.2.1 "x https://e.co/unsubscribe. y"
      "https://e.co/unsubscribe.".data (by decide),
   c7_body_extraction.2.2.2 "x https://e.co/unsubscribe. y"
      "https://e.co/unsubscribe" 'e' (by decide) (by decide)⟩

/-- Claim C1: a message whose current label ids intersect the category label
ids is skipped without the classifier ever being invoked, the skip is counted
only in the already-labeled counter (processed, kept and trashed counts are
unchanged), and this holds for the main-pass step and for the step of every
retry round. -/
theorem c1_already_labeled_skip :
    ∀ (cfg : RunConfig) (catIds : List String) (total idx attempt : Nat)
      (retry_delay : ℚ) (qlen email_idx : Nat) (s : RunState)
      (q rem : List EmailEnv) (e : EmailEnv),
      (anyLabelIn catIds (e.labels 0) = true →
        mainStep cfg catIds total idx s q e =
          ({ s with skipped_already_labeled := s.skipped_already_labeled + 1 }, q,
            [Event.skippedAlready e.id])) ∧
      (anyLabelIn catIds (e.labels attempt) = true →
        retryStep cfg catIds attempt retry_delay qlen email_idx s rem e =
          ({ s with skipped_already_labeled := s.skipped_already_labeled + 1 }, rem,
            [Event.skippedAlready e.id])) := by
  intro cfg catIds total idx attempt retry_delay qlen email_idx s q rem e
  constructor
  · intro h
    unfold mainStep
    rw [h]
    rfl
  · intro h
    unfold retryStep
    rw [h]
    rfl

theorem c1_already_labeled_witness :
    anyLabelIn ["L1"] ["L1", "X"] = true ∧
    mainStep ⟨["Notes"], 3⟩ ["L1"] 5 0 {} [] (constEnv "m7" ["L1", "X"] (.ok "Notes")) =
      (⟨0, 1, 0, 0, 0, []⟩, [], [Event.skippedAlready "m7"]) ∧
    retryStep ⟨["Notes"], 3⟩ ["L1"] 2 9 1 0 {} [] (constEnv "m7" ["L1", "X"] (.ok "Notes")) =
      (⟨0, 1, 0, 0, 0, []⟩, [], [Event.skippedAlready "m7"]) :=
  ⟨by decide,
   (c1_already_labeled_skip ⟨["Notes"], 3⟩ ["L1"] 5 0 2 9 1 0 {} [] []
      (constEnv "m7" ["L1", "X"] (.ok "Notes"))).1 (by decide),
   (c1_already_labeled_skip ⟨["Notes"], 3⟩ ["L1"] 5 0 2 9 1 0 {} [] []
      (constEnv "m7" ["L1", "X"] (.ok "Notes"))).2 (by decide)⟩

theorem retryStep_queue (cfg : RunConfig) (catIds : List String) (attempt : Nat)
    (retry_delay : ℚ) (qlen email_idx : Nat) (s : RunState)
    (rem : List EmailEnv) (e : EmailEnv) :
    (retryStep cfg catIds attempt retry_delay qlen email_idx s rem e).2.1 =
      if stillThrottled catIds attempt e then rem ++ [e] else rem := by
  unfold retryStep stillThrottled
  by_cases h : anyLabelIn catIds (e.labels attempt) = true
  · simp [h]
  · cases hc : e.classify attempt with
    | ok category =>
      cases hd : decideRetention category cfg.CATEGORIES_TO_KEEP <;>
        simp [h, hc, hd]
    | throttled => simp [h, hc]
    | errored => simp [h, hc]

theorem retryRoundAux_queue (cfg : RunConfig) (catIds : List String)
    (attempt : Nat) (retry_delay : ℚ) (qlen : Nat) :
    ∀ (q : List EmailEnv) (email_idx : Nat) (s : RunState) (rem : List EmailEnv),
      (retryRoundAux cfg catIds attempt retry_delay qlen email_idx s rem q).2.1 =
        rem ++ q.filter (stillThrottled catIds attempt) := by
  intro q
  induction q with
  | nil => intro i s rem; simp [retryRoundAux]
  | cons e es ih =>
    intro i s rem
    simp only [retryRoundAux]
    rw [ih, retryStep_queue]
    by_cases h : stillThrottled catIds attempt e = true
    · simp [h, List.filter_cons]
    · simp [h, List.filter_cons]

theorem retryRound_queue (cfg : RunConfig) (catIds : List String)
    (attempt : Nat) (retry_delay : ℚ) (s : RunState) (q : List EmailEnv) :
    (retryRound cfg catIds attempt retry_delay s q).2.1 =
      q.filter (stillThrottled catIds attempt) := by
  unfold retryRound
  rw [retryRoundAux_queue]
  simp

theorem retryLoop_waits_le (cfg : RunConfig) (catIds : List String) :
    ∀ (rounds attempt : Nat) (d : ℚ) (s : RunState) (q : List EmailEnv),
      (retryLoop cfg catIds rounds attempt d s q).2.2.1.length ≤ rounds := by
  intro rounds
  induction rounds with
  | zero => intro a d s q; simp [retryLoop]
  | succ n ih =>
    intro a d s q
    by_cases hq : q.isEmpty
    · simp [retryLoop, hq]
    · simp only [retryLoop, hq, Bool.false_eq_true, if_false, List.length_cons]
      exact Nat.succ_le_succ (ih _ _ _ _)

theorem retryLoop_waits_getD (cfg : RunConfig) (catIds : List String) :
    ∀ (rounds attempt : Nat) (d : ℚ) (s : RunState) (q : List EmailEnv) (k : Nat),
      k < (retryLoop cfg catIds rounds attempt d s q).2.2.1.length →
      (retryLoop cfg catIds rounds attempt d s q).2.2.1.getD k 0 = d * 2 ^ k := by
  intro rounds
  induction rounds with
  | zero => intro a d s q k h; simp [retryLoop] at h
  | succ n ih =>
    intro a d s q k h
    by_cases hq : q.isEmpty
    · exfalso; simp [retryLoop, hq] at h
    · simp only [retryLoop, hq, Bool.false_eq_true, if_false] at h ⊢
      cases k with
      | zero => simp
      | succ k =>
        simp only [List.getD_cons_succ, List.length_cons] at h ⊢
        by_cases hq1 : (retryRound cfg catIds a d s q).2.1.isEmpty
        · exfalso
          have hnil : (retryRound cfg catIds a d s q).2.1 = [] :=
            List.isEmpty_iff.mp hq1
          cases n with
          | zero => simp [retryLoop] at h
          | succ m => simp [retryLoop, hnil] at h
        · have h2 := ih (a + 1)
            (if (retryRound cfg catIds a d s q).2.1.isEmpty then d else d * 2)
            (retryRound cfg catIds a d s q).1 (retryRound cfg catIds a d s q).2.1 k
            (by simpa using Nat.lt_of_succ_lt_succ h)
          rw [h2]
          simp only [hq1, Bool.false_eq_true, if_false]
          ring

theorem retryLoop_waits_of_stuck (cfg : RunConfig) (catIds : List String) :
    ∀ (rounds attempt : Nat) (d : ℚ) (s : RunState) (q : List EmailEnv),
      (retryLoop cfg catIds rounds attempt d s q).2.1 ≠ [] →
      (retryLoop cfg catIds rounds attempt d s q).2.2.1.length = rounds := by
  intro rounds
  induction rounds with
  | zero => intro a d s q h; simp [retryLoop]
  | succ n ih =>
    intro a d s q h
    by_cases hq : q.isEmpty
    · exfalso
      rw [show (retryLoop cfg catIds (n + 1) a d s q) = (s, q, [], []) by
        simp [retryLoop, hq]] at h
      exact h (List.isEmpty_iff.mp hq)
    · simp only [retryLoop, hq, Bool.false_eq_true, if_false, List.length_cons] at h ⊢
      rw [ih _ _ _ _ h]

theorem mainStep_skipped_rate (cfg : RunConfig) (catIds : List String)
    (total idx : Nat) (s : RunState) (q : List EmailEnv) (e : EmailEnv) :
    (mainStep cfg catIds total idx s q e).1.skipped_rate_limit =
      s.skipped_rate_limit := by
  unfold mainStep
  by_cases h : anyLabelIn catIds (e.labels 0) = true
  · simp [h]
  · cases hc : e.classify 0 with
    | ok category =>
      cases hd : decideRetention category cfg.CATEGORIES_TO_KEEP <;>
        simp [h, hc, hd]
    | throttled => simp [h, hc]
    | errored => simp [h, hc]

theorem mainPassAux_skipped_rate (cfg : RunConfig) (catIds : List String)
    (total : Nat) :
    ∀ (es : List EmailEnv) (idx : Nat) (s : RunState) (q : List EmailEnv),
      (mainPassAux cfg catIds total idx s q es).1.skipped_rate_limit =
        s.skipped_rate_limit := by
  intro es
  induction es with
  | nil => intro idx s q; rfl
  | cons e es ih =>
    intro idx s q
    simp only [mainPassAux]
    rw [ih]
    exact mainStep_skipped_rate cfg catIds total idx s q e

/-- Claim C3: the retry protocol runs at most 3 rounds; the wait before
round k (counting from 0) is `RATE_LIMIT_DELAY * 3 * 2 ^ k`, i.e. the
sequence 3x, 6x, 12x the base delay; when messages remain throttled at the
end all 3 rounds ran; each round moves exactly the still-throttled,
not-already-labeled messages of its queue to the next round; and the
messages left after the last round are counted in the rate-limit-skipped
counter, which equals the final queue length. -/
theorem c3_retry_protocol :
    ∀ (cfg : RunConfig) (catIds : List String) (emails : List EmailEnv),
      (processInbox cfg catIds emails).retryWaits.length ≤ 3 ∧
      (∀ k : Nat, k < (processInbox cfg catIds emails).retryWaits.length →
        (processInbox cfg catIds emails).retryWaits.getD k 0 =
          cfg.RATE_LIMIT_DELAY * 3 * 2 ^ k) ∧
      ((processInbox cfg catIds emails).finalQueue ≠ [] →
        (processInbox cfg catIds emails).retryWaits.length = 3) ∧
      (∀ (attempt : Nat) (d : ℚ) (s : RunState) (q : List EmailEnv),
        (retryRound cfg catIds attempt d s q).2.1 =
          q.filter (stillThrottled catIds attempt)) ∧
      (processInbox cfg catIds emails).state.skipped_rate_limit =
        (processInbox cfg catIds emails).finalQueue.length := by
  intro cfg catIds emails
  by_cases hq : (mainPassAux cfg catIds emails.length 0 {} [] emails).2.1.isEmpty
  · have hW : (processInbox cfg catIds emails).retryWaits = [] := by
      simp [processInbox, hq]
    have hF : (processInbox cfg catIds emails).finalQueue = [] := by
      simp [processInbox, hq]
      exact List.isEmpty_iff.mp hq
    have hS : (processInbox cfg catIds emails).state.skipped_rate_limit = 0 := by
      have : (processInbox cfg catIds emails).state =
          (mainPassAux cfg catIds emails.length 0 {} [] emails).1 := by
        simp [processInbox, hq]
      rw [this, mainPassAux_skipped_rate]
    refine ⟨by simp [hW], by simp [hW], fun h => absurd hF h, ?_, by simp [hS, hF]⟩
    intro attempt d s q
    exact retryRound_queue cfg catIds attempt d s q
  · have hW : (processInbox cfg catIds emails).retryWaits =
        (retryLoop cfg catIds 3 1 (cfg.RATE_LIMIT_DELAY * 3)
          (mainPassAux cfg catIds emails.length 0 {} [] emails).1
          (mainPassAux cfg catIds emails.length 0 {} [] emails).2.1).2.2.1 := by
      simp [processInbox, hq]
    have hF : (processInbox cfg catIds emails).finalQueue =
        (retryLoop cfg catIds 3 1 (cfg.RATE_LIMIT_DELAY * 3)
          (mainPassAux cfg catIds emails.length 0 {} [] emails).1
          (mainPassAux cfg catIds emails.length 0 {} [] emails).2.1).2.1 := by
      simp [processInbox, hq]
    have hS : (processInbox cfg catIds emails).state.skipped_rate_limit =
        (retryLoop cfg catIds 3 1 (cfg.RATE_LIMIT_DELAY * 3)
          (mainPassAux cfg catIds emails.length 0 {} [] emails).1
          (mainPassAux cfg catIds emails.length 0 {} [] emails).2.1).2.1.length := by
      simp [processInbox, hq]
    refine ⟨?_, ?_, ?_, ?_, ?_⟩
    · rw [hW]; exact retryLoop_waits_le cfg catIds 3 1 _ _ _
    · intro k hk
      rw [hW] at hk ⊢
      exact retryLoop_waits_getD cfg catIds 3 1 _ _ _ k hk
    · intro h
      rw [hF] at h
      rw [hW]
      exact retryLoop_waits_of_stuck cfg catIds 3 1 _ _ _ h
    · intro attempt d s q
      exact retryRound_queue cfg catIds attempt d s q
    · rw [hS, hF]

theorem c3_retry_witness :
    (processInbox ⟨["Notes"], 3⟩ []
      [constEnv "t1" [] .throttled, constEnv "t2" [] .throttled]).retryWaits.getD 0 0 = 9 ∧
    (processInbox ⟨["Notes"], 3⟩ []
      [constEnv "t1" [] .throttled, constEnv "t2" [] .throttled]).retryWaits.getD 1 0 = 18 ∧
    (processInbox ⟨["Notes"], 3⟩ []
      [constEnv "t1" [] .throttled, constEnv "t2" [] .throttled]).retryWaits.getD 2 0 = 36 ∧
    (processInbox ⟨["Notes"], 3⟩ []
      [constEnv "t1" [] .throttled, constEnv "t2" [] .throttled]).retryWaits.length = 3 ∧
    (processInbox ⟨["Notes"], 3⟩ []
      [constEnv "t1" [] .throttled, constEnv "t2" [] .throttled]).state.skipped_rate_limit =
      (processInbox ⟨["Notes"], 3⟩ []
        [constEnv "t1" [] .throttled, constEnv "t2" [] .throttled]).finalQueue.length := by
  have hlen : (processInbox ⟨["Notes"], 3⟩ []
      [constEnv "t1" [] .throttled, constEnv "t2" [] .throttled]).finalQueue.length = 2 := by
    decide
  have hne : (processInbox ⟨["Notes"], 3⟩ []
      [constEnv "t1" [] .throttled, constEnv "t2" [] .throttled]).finalQueue ≠ [] := by
    intro h
    rw [h] at hlen
    exact absurd hlen (by decide)
  have h3 := (c3_retry_protocol ⟨["Notes"], 3⟩ []
    [constEnv "t1" [] .throttled, constEnv "t2" [] .throttled]).2.2.1 hne
  refine ⟨?_, ?_, ?_, h3, (c3_retry_protocol _ _ _).2.2.2.2⟩
  · rw [(c3_retry_protocol _ _ _).2.1 0 (by rw [h3]; decide)]
    norm_num
  · rw [(c3_retry_protocol _ _ _).2.1 1 (by rw [h3]; decide)]
    norm_num
  · rw [(c3_retry_protocol _ _ _).2.1 2 (by rw [h3]; decide)]
    norm_num

/-- Claim C9 counterexample: the claim says the run summary contains a count
of errored messages, but a run with exactly 3 non-throttle failures prints a
summary in which the digit 3 appears nowhere — no line of the summary block
or of the final log message reports the errored count (the source keeps no
error counter at all). -/
theorem c9_counterexample :
    countErrors (processInbox ⟨["Notes", "Github"], 3⟩ ["LBL1"]
      [constEnv "a" [] (.ok "Notes"), constEnv "b" [] .errored,
       constEnv "c" [] .errored, constEnv "d" [] .errored]).trace = 3 ∧
    (runSummaryLines ⟨["Notes", "Github"], 3⟩ ["LBL1"]
      [constEnv "a" [] (.ok "Notes"), constEnv "b" [] .errored,
       constEnv "c" [] .errored, constEnv "d" [] .errored]).all
      (fun l => !containsStr l "3") = true :=
  ⟨by decide, by decide⟩

theorem mem_insertSorted (x a : String) (l : List String) :
    a ∈ insertSorted x l ↔ a = x ∨ a ∈ l := by
  induction l with
  | nil => simp [insertSorted]
  | cons y ys ih =>
    unfold insertSorted
    split
    · simp
    · simp [ih]
      tauto

theorem mem_sortStrings (a : String) (l : List String) :
    a ∈ sortStrings l ↔ a ∈ l := by
  induction l with
  | nil => simp [sortStrings]
  | cons x xs ih => simp [sortStrings, mem_insertSorted, ih]

theorem renderSummary_mem (keep : List String) (fetched : Nat) (s : RunState)
    (hne : s.category_counts ≠ []) :
    ("Total Fetched:    " ++ toString fetched ++ " emails") ∈
      renderSummary keep fetched s ∧
    ("  ✓ Kept:         " ++ toString s.kept_count ++ " emails (labeled & archived)") ∈
      renderSummary keep fetched s ∧
    ("  ✗ Trashed:      " ++ toString s.trashed_count ++ " emails (moved to trash)") ∈
      renderSummary keep fetched s ∧
    ("Total Processed:  " ++ toString s.processed_count ++ " emails") ∈
      renderSummary keep fetched s ∧
    summaryMsg s fetched ∈ renderSummary keep fetched s ∧
    (0 < s.skipped_already_labeled →
      ("  ⊜ Skipped:      " ++ toString s.skipped_already_labeled ++
        " emails (already labeled)") ∈ renderSummary keep fetched s) ∧
    (0 < s.skipped_rate_limit →
      ("  ⚠ Skipped:      " ++ toString s.skipped_rate_limit ++
        " emails (rate limits - failed after retries)") ∈ renderSummary keep fetched s) ∧
    (∀ c, c ∈ s.category_counts.map Prod.fst →
      categoryLine keep s.category_counts c ∈ renderSummary keep fetched s) := by
  have hie : s.category_counts.isEmpty = false := by
    cases h : s.category_counts with
    | nil => exact absurd h hne
    | cons a l => rfl
  unfold renderSummary
  simp only [hie, Bool.false_eq_true, if_false]
  refine ⟨?_, ?_, ?_, ?_, ?_, ?_, ?_, ?_⟩
  · simp [List.mem_append]
  · simp [List.mem_append]
  · simp [List.mem_append]
  · simp [List.mem_append]
  · simp [List.mem_append]
  · intro h
    simp [List.mem_append, h]
  · intro h
    simp [List.mem_append, h]
  · intro c hc
    have hsort : c ∈ sortStrings (s.category_counts.map Prod.fst) :=
      (mem_sortStrings c _).mpr hc
    have hmap := List.mem_map_of_mem (categoryLine keep s.category_counts) hsort
    simp only [List.mem_append, List.mem_cons]
    tauto

/-- Claim C9 amended: every completed pass that categorized at least one
message prints a summary containing the per-category lines, the fetched,
kept, trashed and processed totals, the final log message, and each of the
two skipped counts when positive; no errored count is part of the summary —
non-throttle failures are only logged per message as they occur. -/
theorem c9_summary_amended :
    ∀ (cfg : RunConfig) (catIds : List String) (emails : List EmailEnv),
      (processInbox cfg catIds emails).state.category_counts ≠ [] →
      ("Total Fetched:    " ++ toString (processInbox cfg catIds emails).fetched ++
        " emails") ∈ runSummaryLines cfg catIds emails ∧
      ("  ✓ Kept:         " ++ toString (processInbox cfg catIds emails).state.kept_count ++
        " emails (labeled & archived)") ∈ runSummaryLines cfg catIds emails ∧
      ("  ✗ Trashed:      " ++ toString (processInbox cfg catIds emails).state.trashed_count ++
        " emails (moved to trash)") ∈ runSummaryLines cfg catIds emails ∧
      ("Total Processed:  " ++ toString (processInbox cfg catIds emails).state.processed_count ++
        " emails") ∈ runSummaryLines cfg catIds emails ∧
      summaryMsg (processInbox cfg catIds emails).state
        (processInbox cfg catIds emails).fetched ∈ runSummaryLines cfg catIds emails ∧
      (0 < (processInbox cfg catIds emails).state.skipped_already_labeled →
        ("  ⊜ Skipped:      " ++
          toString (processInbox cfg catIds emails).state.skipped_already_labeled ++
          " emails (already labeled)") ∈ runSummaryLines cfg catIds emails) ∧
      (0 < (processInbox cfg catIds emails).state.skipped_rate_limit →
        ("  ⚠ Skipped:      " ++
          toString (processInbox cfg catIds emails).state.skipped_rate_limit ++
          " emails (rate limits - failed after retries)") ∈ runSummaryLines cfg catIds emails) ∧
      (∀ c, c ∈ (processInbox cfg catIds emails).state.category_counts.map Prod.fst →
        categoryLine cfg.CATEGORIES_TO_KEEP
          (processInbox cfg catIds emails).state.category_counts c ∈
          runSummaryLines cfg catIds emails) := by
  intro cfg catIds emails hne
  exact renderSummary_mem cfg.CATEGORIES_TO_KEEP
    (processInbox cfg catIds emails).fetched
    (processInbox cfg catIds emails).state hne

theorem c9_summary_witness :
    ("Total Processed:  1 emails") ∈
      runSummaryLines ⟨["Notes"], 3⟩ [] [constEnv "a" [] (.ok "Notes")] ∧
    ("  ✓ Kept:         1 emails (labeled & archived)") ∈
      runSummaryLines ⟨["Notes"], 3⟩ [] [constEnv "a" [] (.ok "Notes")] := by
  have h := c9_summary_amended ⟨["Notes"], 3⟩ [] [constEnv "a" [] (.ok "Notes")] (by decide)
  exact ⟨h.2.2.2.1, h.2.1⟩

theorem c6_one_click_witness :
    headerGet ((some [("List-Unsubscribe", "<https://x/y>"),
        ("List-Unsubscribe-Post", "List-Unsubscribe=One-Click")]).getD [])
      "List-Unsubscribe-Post" ≠ "" ∧
    containsStr (headerGet ((some [("List-Unsubscribe", "<https://x/y>"),
        ("List-Unsubscribe-Post", "List-Unsubscribe=One-Click")]).getD [])
      "List-Unsubscribe-Post") "List-Unsubscribe=One-Click" = true ∧
    ∃ u, u ∈ (extractBracketed
        (headerGet ((some [("List-Unsubscribe", "<https://x/y>"),
          ("List-Unsubscribe-Post", "List-Unsubscribe=One-Click")]).getD [])
          "List-Unsubscribe").data).map String.mk ∧
      strStartsWith u "http" = true ∧
      (extract_unsubscribe_info ""
        (some [("List-Unsubscribe", "<https://x/y>"),
          ("List-Unsubscribe-Post", "List-Unsubscribe=One-Click")])).url = some u ∧
      (extract_unsubscribe_info ""
        (some [("List-Unsubscribe", "<https://x/y>"),
          ("List-Unsubscribe-Post", "List-Unsubscribe=One-Click")])).list_unsubscribe_post =
        some (headerGet ((some [("List-Unsubscribe", "<https://x/y>"),
          ("List-Unsubscribe-Post", "List-Unsubscribe=One-Click")]).getD [])
          "List-Unsubscribe-Post") :=
  c6_one_click_amended.2 ""
    (some [("List-Unsubscribe", "<https://x/y>"),
      ("List-Unsubscribe-Post", "List-Unsubscribe=One-Click")]) (by decide)



end EmailOrganizer
